/-
Verification of the QwertDvert daemon (src/src/bin/daemon.rs): a shallow
embedding of the event-pipeline core — the Dvorak remap table, per-device
modifier tracking, the channel submission policy, the output writer's
failure handling, device-qualification at startup, reader setup, and the
process exit path — together with proofs of the specified properties.
-/
import Mathlib

set_option maxRecDepth 4000

/-! ## Key code constants

Numeric values of the `evdev::Key` constants used by the daemon
(Linux `input-event-codes.h` values, which the evdev crate re-exports). -/

def KEY_MINUS : Nat := 12
def KEY_EQUAL : Nat := 13
def KEY_Q : Nat := 16
def KEY_W : Nat := 17
def KEY_E : Nat := 18
def KEY_R : Nat := 19
def KEY_T : Nat := 20
def KEY_Y : Nat := 21
def KEY_U : Nat := 22
def KEY_I : Nat := 23
def KEY_O : Nat := 24
def KEY_P : Nat := 25
def KEY_LEFTBRACE : Nat := 26
def KEY_RIGHTBRACE : Nat := 27
def KEY_A : Nat := 30
def KEY_S : Nat := 31
def KEY_D : Nat := 32
def KEY_F : Nat := 33
def KEY_G : Nat := 34
def KEY_H : Nat := 35
def KEY_J : Nat := 36
def KEY_K : Nat := 37
def KEY_L : Nat := 38
def KEY_SEMICOLON : Nat := 39
def KEY_APOSTROPHE : Nat := 40
def KEY_Z : Nat := 44
def KEY_X : Nat := 45
def KEY_C : Nat := 46
def KEY_V : Nat := 47
def KEY_B : Nat := 48
def KEY_N : Nat := 49
def KEY_M : Nat := 50
def KEY_COMMA : Nat := 51
def KEY_DOT : Nat := 52
def KEY_SLASH : Nat := 53
def KEY_LEFTCTRL : Nat := 29
def KEY_RIGHTCTRL : Nat := 97
def KEY_LEFTALT : Nat := 56
def KEY_RIGHTALT : Nat := 100
def KEY_LEFTMETA : Nat := 125
def KEY_RIGHTMETA : Nat := 126

/-- Numeric value of `evdev::EventType::SYNCHRONIZATION` (`EV_SYN`). -/
def EV_SYN : Nat := 0
/-- Numeric value of `evdev::EventType::KEY` (`EV_KEY`). -/
def EV_KEY : Nat := 1

/-! ## The remap table (`remap_key_code`, daemon.rs lines 59–96)

In the Rust source the function matches on `Key::new(code)`; since an
`evdev::Key` is a transparent wrapper around the `u16` code and the match
arms are the `Key` constants, the match is exactly a comparison of the
numeric code against each table entry in order, with the original code as
the wildcard fallback. -/

/-- Maps QWERTY key codes to Dvorak layout.
Returns the original code if no mapping exists (non-alphabetic keys, etc.). -/
def remap_key_code (code : Nat) : Nat :=
  if code = KEY_MINUS then KEY_LEFTBRACE
  else if code = KEY_EQUAL then KEY_RIGHTBRACE
  else if code = KEY_Q then KEY_APOSTROPHE
  else if code = KEY_W then KEY_COMMA
  else if code = KEY_E then KEY_DOT
  else if code = KEY_R then KEY_P
  else if code = KEY_T then KEY_Y
  else if code = KEY_Y then KEY_F
  else if code = KEY_U then KEY_G
  else if code = KEY_I then KEY_C
  else if code = KEY_O then KEY_R
  else if code = KEY_P then KEY_L
  else if code = KEY_LEFTBRACE then KEY_SLASH
  else if code = KEY_RIGHTBRACE then KEY_EQUAL
  else if code = KEY_S then KEY_O
  else if code = KEY_D then KEY_E
  else if code = KEY_F then KEY_U
  else if code = KEY_G then KEY_I
  else if code = KEY_H then KEY_D
  else if code = KEY_J then KEY_H
  else if code = KEY_K then KEY_T
  else if code = KEY_L then KEY_N
  else if code = KEY_SEMICOLON then KEY_S
  else if code = KEY_APOSTROPHE then KEY_MINUS
  else if code = KEY_Z then KEY_SEMICOLON
  else if code = KEY_X then KEY_Q
  else if code = KEY_C then KEY_J
  else if code = KEY_V then KEY_K
  else if code = KEY_B then KEY_X
  else if code = KEY_N then KEY_B
  else if code = KEY_COMMA then KEY_W
  else if code = KEY_DOT then KEY_V
  else if code = KEY_SLASH then KEY_Z
  else code

/-- The 33 `(input, output)` pairs of the match in `remap_key_code`, in
source order: the literal fixture the spec's tests compare against. -/
def remapTableEntries : List (Nat × Nat) :=
  [(KEY_MINUS, KEY_LEFTBRACE), (KEY_EQUAL, KEY_RIGHTBRACE),
   (KEY_Q, KEY_APOSTROPHE), (KEY_W, KEY_COMMA), (KEY_E, KEY_DOT),
   (KEY_R, KEY_P), (KEY_T, KEY_Y), (KEY_Y, KEY_F), (KEY_U, KEY_G),
   (KEY_I, KEY_C), (KEY_O, KEY_R), (KEY_P, KEY_L),
   (KEY_LEFTBRACE, KEY_SLASH), (KEY_RIGHTBRACE, KEY_EQUAL),
   (KEY_S, KEY_O), (KEY_D, KEY_E), (KEY_F, KEY_U), (KEY_G, KEY_I),
   (KEY_H, KEY_D), (KEY_J, KEY_H), (KEY_K, KEY_T), (KEY_L, KEY_N),
   (KEY_SEMICOLON, KEY_S), (KEY_APOSTROPHE, KEY_MINUS),
   (KEY_Z, KEY_SEMICOLON), (KEY_X, KEY_Q), (KEY_C, KEY_J),
   (KEY_V, KEY_K), (KEY_B, KEY_X), (KEY_N, KEY_B), (KEY_COMMA, KEY_W),
   (KEY_DOT, KEY_V), (KEY_SLASH, KEY_Z)]

/-- The key codes remapped by the table (the match arms' patterns). -/
def remapDomain : List Nat := remapTableEntries.map Prod.fst

/-! ## Events and the channel triple

evdev events carry a `u16` event type, a `u16` code and an `i32` value;
the channel carries `(i32, i32, i32)` triples built from them by lossless
widening casts. Types and codes are modelled as `Nat`, values as `Int`. -/

/-- One event fetched from a device: `event_type()`, `code()`, `value()`. -/
structure InputEvent where
  event_type : Nat
  code : Nat
  value : Int
  deriving Repr, DecidableEq

/-- The `(kind, code, value)` triple sent over the mpsc channel. -/
structure Triple where
  kind : Nat
  code : Nat
  value : Int
  deriving Repr, DecidableEq

/-- Which mpsc submission primitive the reader uses for an event:
`SyncSender::send` (blocking) or `SyncSender::try_send` (non-blocking). -/
inductive SendMode where
  | blocking
  | nonblocking
  deriving Repr, DecidableEq

/-- A reader's submission to the event channel: the triple plus the
primitive used to submit it. -/
structure Submission where
  mode : SendMode
  triple : Triple
  deriving Repr, DecidableEq

/-- mpsc semantics of the two submission primitives on a bounded channel:
a blocking `send` waits for space and never drops; a `try_send` returns
`Full` — and the daemon then silently discards the event — exactly when
the channel is full. -/
def submissionDropped (s : Submission) (channelFull : Bool) : Bool :=
  match s.mode with
  | SendMode.blocking => false
  | SendMode.nonblocking => channelFull

/-! ## Modifier tracking (daemon.rs lines 48–55 and 319–336) -/

/-- Tracks the current state of modifier keys to determine whether to
remap. When any modifier is held, keys are passed through unmapped for
shortcuts. `Default` in Rust initialises all three fields to `false`. -/
structure ModifierState where
  ctrl : Bool
  alt : Bool
  super_key : Bool
  deriving Repr, DecidableEq

def ModifierState.initial : ModifierState :=
  { ctrl := false, alt := false, super_key := false }

/-- The modifier-tracking match (daemon.rs lines 319–330): on a key event
whose code is one of the three left/right modifier pairs, set that pair's
boolean to `value != 0`; any other code leaves the state unchanged. -/
def updateModifiers (m : ModifierState) (key_code : Nat) (value : Int) :
    ModifierState :=
  if key_code = KEY_LEFTCTRL ∨ key_code = KEY_RIGHTCTRL then
    { m with ctrl := value != 0 }
  else if key_code = KEY_LEFTALT ∨ key_code = KEY_RIGHTALT then
    { m with alt := value != 0 }
  else if key_code = KEY_LEFTMETA ∨ key_code = KEY_RIGHTMETA then
    { m with super_key := value != 0 }
  else m

/-- Processing of one `EventType::KEY` event by the device reader
(daemon.rs lines 314–360): update the modifier state, compute the output
code (passthrough when a modifier is held, else the remap table), and
choose the submission primitive (`try_send` for autorepeat `value == 2`,
blocking `send` otherwise). The triple's kind is the event's type. -/
def processKeyEvent (m : ModifierState) (key_code : Nat) (value : Int) :
    ModifierState × Submission :=
  let m' := updateModifiers m key_code value
  let output_code :=
    if m'.ctrl || m'.alt || m'.super_key then key_code
    else remap_key_code key_code
  let mode :=
    if value = 2 then SendMode.nonblocking else SendMode.blocking
  (m', ⟨mode, ⟨EV_KEY, output_code, value⟩⟩)

/-- Processing of one non-key event (daemon.rs lines 361–391): the triple
is forwarded unchanged; synchronization events use the blocking `send`,
every other class uses `try_send`. -/
def processNonKeyEvent (ty code : Nat) (value : Int) : Submission :=
  if ty = EV_SYN then ⟨SendMode.blocking, ⟨ty, code, value⟩⟩
  else ⟨SendMode.nonblocking, ⟨ty, code, value⟩⟩

/-- Per-event behaviour of the device reader loop body: key events go
through modifier tracking and remapping, all others are passed through. -/
def processEvent (m : ModifierState) (e : InputEvent) :
    ModifierState × Submission :=
  if e.event_type = EV_KEY then processKeyEvent m e.code e.value
  else (m, processNonKeyEvent e.event_type e.code e.value)

/-- Folding the modifier-tracking update over a sequence of key events
(the reader applies `updateModifiers` to every `EventType::KEY` event in
fetch order). -/
def runModifiers (m : ModifierState) (evs : List (Nat × Int)) :
    ModifierState :=
  evs.foldl (fun s e => updateModifiers s e.1 e.2) m

/-- The result of `value != 0` at the most recent event (in `evs`) whose
code satisfies `p`, or `dflt` if there is none. -/
def lastModValue (p : Nat → Bool) (dflt : Bool) (evs : List (Nat × Int)) :
    Bool :=
  match (evs.filter (fun e => p e.1)).getLast? with
  | some e => e.2 != 0
  | none => dflt

def isCtrlCode (c : Nat) : Bool :=
  c == KEY_LEFTCTRL || c == KEY_RIGHTCTRL

def isAltCode (c : Nat) : Bool :=
  c == KEY_LEFTALT || c == KEY_RIGHTALT

def isMetaCode (c : Nat) : Bool :=
  c == KEY_LEFTMETA || c == KEY_RIGHTMETA

/-! ## Output writer failure handling (daemon.rs lines 40–46, 207–245) -/

/-- Maximum consecutive uinput write failures before giving up. -/
def MAX_CONSECUTIVE_FAILURES : Nat := 100

/-- Initial backoff multiplier for uinput write failures
(10ms per failure, capped at 100ms). -/
def BACKOFF_BASE_MS : Nat := 10

/-- What the writer thread does after one `Ok((kind, code, value))`
receive: the triple it writes, the new consecutive-failure counter, how
long it sleeps, whether it breaks out of its loop, and the shutdown flag
after the step. -/
structure WriterStepResult where
  written : Triple
  consecutive_failures : Nat
  sleep_ms : Nat
  halted : Bool
  shutdown : Bool
  deriving Repr, DecidableEq

/-- The writer's handling of a received triple (daemon.rs lines 212–229):
it writes exactly the received triple to the uinput device; `writeOk`
says whether that write succeeded. On failure the counter is incremented;
at `MAX_CONSECUTIVE_FAILURES` the writer sets the shutdown flag and
breaks, otherwise it sleeps `BACKOFF_BASE_MS * min(failures, 10)` ms and
continues. On success the counter resets to zero. -/
def writerHandleRecv (failures : Nat) (shutdown : Bool) (t : Triple)
    (writeOk : Bool) : WriterStepResult :=
  if writeOk then
    ⟨t, 0, 0, false, shutdown⟩
  else
    let f := failures + 1
    if f ≥ MAX_CONSECUTIVE_FAILURES then
      ⟨t, f, 0, true, true⟩
    else
      ⟨t, f, BACKOFF_BASE_MS * min f 10, false, shutdown⟩

/-! ## Startup device qualification (daemon.rs lines 31–33, 120–132) -/

/-- Identify laptop keyboard devices (AT Translated Set 2 keyboards). -/
def KEYBOARD_DEVICE_FILTER : String := "AT Translated"

/-- What the enumeration filter reads off an evdev device:
`supported_keys()` (`None` when the device advertises no key capability)
and `name()`. -/
structure DeviceInfo where
  supported_keys : Option (List Nat)
  name : Option String
  deriving Repr, DecidableEq

/-- Whether `needle` occurs as a contiguous substring of `hay` (the
semantics of Rust's `str::contains` with a literal pattern). -/
def containsSub (hay needle : List Char) : Bool :=
  hay.tails.any (fun t => needle.isPrefixOf t)

/-- The device-enumeration filter (daemon.rs lines 124–132): a device is
kept iff `supported_keys()` is present and contains `KEY_A` and contains
`KEY_Z`, and the device name contains `KEYBOARD_DEVICE_FILTER`
(a missing name counts as no match). -/
def qualifiesAsKeyboard (d : DeviceInfo) : Bool :=
  match d.supported_keys with
  | none => false
  | some keys =>
      keys.contains KEY_A && keys.contains KEY_Z &&
      (match d.name with
       | some n => containsSub n.data KEYBOARD_DEVICE_FILTER.data
       | none => false)

/-- A device advertising only the two endpoint keys `KEY_A` and `KEY_Z`
(no other letters) under an "AT Translated" name. -/
def endpointOnlyDevice : DeviceInfo :=
  { supported_keys := some [KEY_A, KEY_Z],
    name := some "AT Translated Set 2 keyboard" }

/-- The 26 alphabetic key codes `KEY_A` through `KEY_Z` (in letter
order; the numeric codes are not contiguous). -/
def alphabeticKeyCodes : List Nat :=
  [KEY_A, KEY_B, KEY_C, KEY_D, KEY_E, KEY_F, KEY_G, KEY_H, KEY_I, KEY_J,
   KEY_K, KEY_L, KEY_M, KEY_N, KEY_O, KEY_P, KEY_Q, KEY_R, KEY_S, KEY_T,
   KEY_U, KEY_V, KEY_W, KEY_X, KEY_Y, KEY_Z]

/-- The qualification predicate as the spec words it: support for the
FULL alphabetic key range (every key from A through Z) and the name
filter. Written from the spec sentence, for comparison with
`qualifiesAsKeyboard`. -/
def qualifiesPerSpec (d : DeviceInfo) : Bool :=
  match d.supported_keys with
  | none => false
  | some keys =>
      alphabeticKeyCodes.all (fun k => keys.contains k) &&
      (match d.name with
       | some n => containsSub n.data KEYBOARD_DEVICE_FILTER.data
       | none => false)

/-! ## Device reader setup (daemon.rs lines 260–299) -/

/-- Outcome of the reader thread's setup phase: either it proceeds into
its event loop (recording whether the descriptor was successfully
switched to non-blocking mode), or it reports a status and returns. -/
inductive ReaderSetup where
  | proceed (nonblocking : Bool)
  | terminate (status : String)
  deriving Repr, DecidableEq

/-- The setup sequence of a device reader thread: grab the device
(failure → report and return), switch the descriptor to `O_NONBLOCK`
(failure → warn and continue), create the epoll instance (failure →
report and return), and add the descriptor to it (failure → report and
return). -/
def readerSetup (grabOk nonblockOk epollCreateOk epollAddOk : Bool) :
    ReaderSetup :=
  if !grabOk then ReaderSetup.terminate "grab failed"
  else if !epollCreateOk then ReaderSetup.terminate "epoll create failed"
  else if !epollAddOk then ReaderSetup.terminate "epoll ctl failed"
  else ReaderSetup.proceed nonblockOk

/-! ## Process exit path (daemon.rs lines 442–448) -/

/-- The exit status of `main` after all threads are joined: if the
shutdown flag was never set, `std::process::exit(1)`; otherwise `main`
returns normally and the process exits with status 0. -/
def mainExitStatus (shutdownFlag : Bool) : Nat :=
  if !shutdownFlag then 1 else 0

/-! ## Helper lemmas on the remap table -/

theorem remapDomain_eq :
    remapDomain = [12, 13, 16, 17, 18, 19, 20, 21, 22, 23, 24, 25, 26, 27,
      31, 32, 33, 34, 35, 36, 37, 38, 39, 40, 44, 45, 46, 47, 48, 49, 51,
      52, 53] := by
  decide

/-- A key code outside the 33 match arms falls through to the wildcard:
`remap_key_code` is the identity there. -/
theorem remap_key_code_not_mem (k : Nat) (hk : k ∉ remapDomain) :
    remap_key_code k = k := by
  rw [remapDomain_eq] at hk
  simp only [List.mem_cons, List.not_mem_nil, or_false, not_or] at hk
  obtain ⟨h1, h2, h3, h4, h5, h6, h7, h8, h9, h10, h11, h12, h13, h14, h15,
    h16, h17, h18, h19, h20, h21, h22, h23, h24, h25, h26, h27, h28, h29,
    h30, h31, h32, h33⟩ := hk
  simp only [remap_key_code, KEY_MINUS, KEY_EQUAL, KEY_Q, KEY_W, KEY_E,
    KEY_R, KEY_T, KEY_Y, KEY_U, KEY_I, KEY_O, KEY_P, KEY_LEFTBRACE,
    KEY_RIGHTBRACE, KEY_S, KEY_D, KEY_F, KEY_G, KEY_H, KEY_J, KEY_K, KEY_L,
    KEY_SEMICOLON, KEY_APOSTROPHE, KEY_Z, KEY_X, KEY_C, KEY_V, KEY_B,
    KEY_N, KEY_COMMA, KEY_DOT, KEY_SLASH,
    if_neg h1, if_neg h2, if_neg h3, if_neg h4, if_neg h5, if_neg h6,
    if_neg h7, if_neg h8, if_neg h9, if_neg h10, if_neg h11, if_neg h12,
    if_neg h13, if_neg h14, if_neg h15, if_neg h16, if_neg h17, if_neg h18,
    if_neg h19, if_neg h20, if_neg h21, if_neg h22, if_neg h23, if_neg h24,
    if_neg h25, if_neg h26, if_neg h27, if_neg h28, if_neg h29, if_neg h30,
    if_neg h31, if_neg h32, if_neg h33]

/-! ## Claim theorems -/

/-- C1: the remap table is the fixed 33-entry Dvorak mapping — in
particular `remap(Q) = APOSTROPHE`, `remap(SEMICOLON) = S`,
`remap(COMMA) = W`, and every entry of the literal fixture holds — and
every key identifier outside those 33 entries maps to itself, so
`remap_key_code` is total and deterministic (it is a Lean function). -/
theorem remap_table_matches_fixture (k : Nat) (hk : k ∉ remapDomain) :
    remapTableEntries.length = 33 ∧
    (remapTableEntries.all fun p => remap_key_code p.1 == p.2) = true ∧
    remap_key_code KEY_Q = KEY_APOSTROPHE ∧
    remap_key_code KEY_SEMICOLON = KEY_S ∧
    remap_key_code KEY_COMMA = KEY_W ∧
    remap_key_code k = k :=
  ⟨by decide, by decide, by decide, by decide, by decide,
   remap_key_code_not_mem k hk⟩

/-- Witness for `remap_table_matches_fixture` at the concrete unmapped
key code 57 (`KEY_SPACE`). -/
theorem remap_table_matches_fixture_witness :
    57 ∉ remapDomain ∧ remap_key_code 57 = 57 :=
  ⟨by decide, (remap_table_matches_fixture 57 (by decide)).2.2.2.2.2⟩

/-- Every key code in the table's domain is mapped back into the
domain. -/
theorem remap_maps_domain_to_domain :
    ∀ k ∈ remapDomain, remap_key_code k ∈ remapDomain := by
  decide

/-- On the table's domain, `remap_key_code` is injective. -/
theorem remap_injOn_domain :
    ∀ k₁ ∈ remapDomain, ∀ k₂ ∈ remapDomain,
      remap_key_code k₁ = remap_key_code k₂ → k₁ = k₂ := by
  decide

/-- C9: `remap_key_code` is a permutation of the key-code space: the
image of the 33-entry domain is a permutation of that same domain, every
other identifier is fixed, and the function is globally injective — no
two distinct input key codes produce the same output code. -/
theorem remap_is_permutation :
    (remapDomain.map remap_key_code).Perm remapDomain ∧
    (∀ k, k ∉ remapDomain → remap_key_code k = k) ∧
    Function.Injective remap_key_code := by
  refine ⟨by decide, remap_key_code_not_mem, ?_⟩
  intro a b hab
  by_cases ha : a ∈ remapDomain <;> by_cases hb : b ∈ remapDomain
  · exact remap_injOn_domain a ha b hb hab
  · rw [remap_key_code_not_mem b hb] at hab
    exact absurd (hab ▸ remap_maps_domain_to_domain a ha) hb
  · rw [remap_key_code_not_mem a ha] at hab
    exact absurd (hab ▸ remap_maps_domain_to_domain b hb) ha
  · rwa [remap_key_code_not_mem a ha, remap_key_code_not_mem b hb] at hab

/-- C2: after the modifier-state update for an event, if any of the three
modifier booleans is true the submitted code equals the original input
code regardless of the table; otherwise it is `remap_key_code` of the
input code. -/
theorem modifier_passthrough (m : ModifierState) (key_code : Nat)
    (value : Int) :
    (((processKeyEvent m key_code value).1.ctrl ||
      (processKeyEvent m key_code value).1.alt ||
      (processKeyEvent m key_code value).1.super_key) = true →
      (processKeyEvent m key_code value).2.triple.code = key_code) ∧
    (((processKeyEvent m key_code value).1.ctrl ||
      (processKeyEvent m key_code value).1.alt ||
      (processKeyEvent m key_code value).1.super_key) = false →
      (processKeyEvent m key_code value).2.triple.code =
        remap_key_code key_code) := by
  by_cases h : ((updateModifiers m key_code value).ctrl ||
      (updateModifiers m key_code value).alt ||
      (updateModifiers m key_code value).super_key) = true
  · constructor <;> intro h' <;> simp_all [processKeyEvent]
  · constructor <;> intro h' <;> simp_all [processKeyEvent]

/-- Witness for `modifier_passthrough`: pressing left Ctrl itself is
passed through (code 29), since the state is updated before the check. -/
theorem modifier_passthrough_witness :
    (processKeyEvent ModifierState.initial KEY_LEFTCTRL 1).2.triple.code =
      KEY_LEFTCTRL :=
  (modifier_passthrough ModifierState.initial KEY_LEFTCTRL 1).1 (by decide)

/-- C3: channel submission policy. Key press/release events (value 0
or 1) and synchronization events use the blocking `send` and are never
dropped at any channel fullness; key autorepeat events (value 2) and all
other non-key event classes use `try_send` and are silently discarded
exactly when the channel is full. -/
theorem channel_submission_policy (m : ModifierState) (e : InputEvent)
    (full : Bool) :
    (e.event_type = EV_KEY → e.value = 0 ∨ e.value = 1 →
      (processEvent m e).2.mode = SendMode.blocking ∧
      submissionDropped (processEvent m e).2 full = false) ∧
    (e.event_type = EV_SYN →
      (processEvent m e).2.mode = SendMode.blocking ∧
      submissionDropped (processEvent m e).2 full = false) ∧
    (e.event_type = EV_KEY → e.value = 2 →
      (processEvent m e).2.mode = SendMode.nonblocking ∧
      submissionDropped (processEvent m e).2 full = full) ∧
    (e.event_type ≠ EV_KEY → e.event_type ≠ EV_SYN →
      (processEvent m e).2.mode = SendMode.nonblocking ∧
      submissionDropped (processEvent m e).2 full = full) := by
  refine ⟨?_, ?_, ?_, ?_⟩
  · intro hty hv
    have hv2 : e.value ≠ 2 := by rcases hv with h | h <;> rw [h] <;> decide
    simp [processEvent, processKeyEvent, hty, hv2, submissionDropped]
  · intro hty
    simp [processEvent, processNonKeyEvent, hty, EV_SYN, EV_KEY,
      submissionDropped]
  · intro hty hv
    simp [processEvent, processKeyEvent, hty, hv, submissionDropped]
  · intro hkey hsyn
    simp [processEvent, processNonKeyEvent, hkey, hsyn, submissionDropped]

/-- Witness for `channel_submission_policy`: a key release of `KEY_Q` is
submitted blocking and survives a full channel. -/
theorem channel_submission_policy_witness :
    (processEvent ModifierState.initial ⟨EV_KEY, KEY_Q, 0⟩).2.mode =
      SendMode.blocking ∧
    submissionDropped
      (processEvent ModifierState.initial ⟨EV_KEY, KEY_Q, 0⟩).2 true =
      false :=
  (channel_submission_policy ModifierState.initial ⟨EV_KEY, KEY_Q, 0⟩
    true).1 rfl (Or.inl rfl)

/-- C4: the output writer's failure policy. On success the
consecutive-failure counter resets to zero and the writer continues; on
failure it increments, and — while still below the ceiling — sleeps
`BACKOFF_BASE_MS * min(count, 10)` ms and continues (a single failure
never halts); it halts with the shutdown flag set exactly when the
counter reaches the ceiling of 100. The hypothesis `f <
MAX_CONSECUTIVE_FAILURES` is the loop invariant: the counter starts at 0
and the writer breaks as soon as the ceiling is reached. -/
theorem writer_failure_policy (f : Nat) (sd : Bool) (t : Triple)
    (hf : f < MAX_CONSECUTIVE_FAILURES) :
    ((writerHandleRecv f sd t true).consecutive_failures = 0 ∧
     (writerHandleRecv f sd t true).halted = false ∧
     (writerHandleRecv f sd t true).shutdown = sd) ∧
    (writerHandleRecv f sd t false).consecutive_failures = f + 1 ∧
    (f + 1 < MAX_CONSECUTIVE_FAILURES →
      (writerHandleRecv f sd t false).halted = false ∧
      (writerHandleRecv f sd t false).shutdown = sd ∧
      (writerHandleRecv f sd t false).sleep_ms =
        BACKOFF_BASE_MS * min (f + 1) 10) ∧
    ((writerHandleRecv f sd t false).halted = true ↔
      f + 1 = MAX_CONSECUTIVE_FAILURES) ∧
    (f + 1 = MAX_CONSECUTIVE_FAILURES →
      (writerHandleRecv f sd t false).shutdown = true) ∧
    MAX_CONSECUTIVE_FAILURES = 100 := by
  have hrecT : writerHandleRecv f sd t true = ⟨t, 0, 0, false, sd⟩ := by
    simp [writerHandleRecv]
  have hrecF : writerHandleRecv f sd t false =
      if f + 1 ≥ MAX_CONSECUTIVE_FAILURES then ⟨t, f + 1, 0, true, true⟩
      else ⟨t, f + 1, BACKOFF_BASE_MS * min (f + 1) 10, false, sd⟩ := by
    simp [writerHandleRecv]
  refine ⟨?_, ?_, ?_, ?_, ?_, rfl⟩
  · rw [hrecT]
    exact ⟨rfl, rfl, rfl⟩
  · rw [hrecF]
    split_ifs <;> rfl
  · intro hlt
    rw [hrecF, if_neg (by omega)]
    exact ⟨rfl, rfl, rfl⟩
  · rw [hrecF]
    split_ifs with h
    · simp only [true_iff]
      omega
    · simp only [Bool.false_eq_true, false_iff]
      omega
  · intro heq
    rw [hrecF, if_pos (by omega)]

/-- Witness for `writer_failure_policy`: the 100th consecutive failure
(counter at 99) halts the writer with the shutdown flag set. -/
theorem writer_failure_policy_witness :
    (writerHandleRecv 99 false ⟨EV_KEY, KEY_Q, 1⟩ false).shutdown = true :=
  (writer_failure_policy 99 false ⟨EV_KEY, KEY_Q, 1⟩
    (by decide)).2.2.2.2.1 (by decide)

/-- C10: frame effect of the pipeline. Every submission preserves the
event's class and value; for non-key events the code is also preserved
(only the code of key events can change); and the writer writes exactly
the triple it received, unmodified. -/
theorem pipeline_frame_effect (m : ModifierState) (e : InputEvent)
    (t : Triple) (f : Nat) (sd writeOk : Bool) :
    (processEvent m e).2.triple.kind = e.event_type ∧
    (processEvent m e).2.triple.value = e.value ∧
    (e.event_type ≠ EV_KEY →
      (processEvent m e).2.triple.code = e.code) ∧
    (writerHandleRecv f sd t writeOk).written = t := by
  refine ⟨?_, ?_, ?_, ?_⟩
  · by_cases h : e.event_type = EV_KEY
    · simp [processEvent, processKeyEvent, h]
    · simp [processEvent, processNonKeyEvent, h]
      split_ifs <;> rfl
  · by_cases h : e.event_type = EV_KEY
    · simp [processEvent, processKeyEvent, h]
    · simp [processEvent, processNonKeyEvent, h]
      split_ifs <;> rfl
  · intro h
    simp [processEvent, processNonKeyEvent, h]
    split_ifs <;> rfl
  · cases writeOk
    · simp only [writerHandleRecv, Bool.false_eq_true, if_false]
      split_ifs <;> rfl
    · simp [writerHandleRecv]

/-- Witness for `pipeline_frame_effect`: a non-key event (class 2,
`EV_REL`) is forwarded with its code unchanged. -/
theorem pipeline_frame_effect_witness :
    (processEvent ModifierState.initial ⟨2, 8, 1⟩).2.triple.code = 8 :=
  (pipeline_frame_effect ModifierState.initial ⟨2, 8, 1⟩
    ⟨EV_SYN, 0, 0⟩ 0 false true).2.2.1 (by decide)

/-- C5 counterexample: the enumeration filter accepts a device that does
NOT support the full alphabetic key range — it checks only the endpoints
`KEY_A` and `KEY_Z`, so `endpointOnlyDevice` (which lacks `KEY_B`
through `KEY_Y`) qualifies, refuting the claimed "if and only if ... every
key from A through Z". -/
theorem keyboard_filter_counterexample :
    qualifiesAsKeyboard endpointOnlyDevice = true ∧
    qualifiesPerSpec endpointOnlyDevice = false := by
  refine ⟨by decide, by decide⟩

/-- C5 (amended): a device qualifies as a keyboard iff it reports a
supported-key set containing `KEY_A` and `KEY_Z` (the endpoints of the
alphabetic range, not necessarily every letter) and its advertised name
contains the fixed keyboard-identifying substring. -/
theorem keyboard_filter_characterization (d : DeviceInfo) :
    qualifiesAsKeyboard d = true ↔
      ∃ keys n, d.supported_keys = some keys ∧ d.name = some n ∧
        keys.contains KEY_A = true ∧ keys.contains KEY_Z = true ∧
        containsSub n.data KEYBOARD_DEVICE_FILTER.data = true := by
  obtain ⟨sk, nm⟩ := d
  cases sk with
  | none => simp [qualifiesAsKeyboard]
  | some keys =>
      cases nm with
      | none => simp [qualifiesAsKeyboard]
      | some n =>
          simp only [qualifiesAsKeyboard, Bool.and_eq_true,
            Option.some.injEq]
          constructor
          · rintro ⟨⟨ha, hz⟩, hn⟩
            exact ⟨keys, n, rfl, rfl, ha, hz, hn⟩
          · rintro ⟨keys', n', hk, hn', ha, hz, hc⟩
            cases hk
            cases hn'
            exact ⟨⟨ha, hz⟩, hc⟩

/-- Witness for `keyboard_filter_characterization`: a concrete device
with the two endpoint keys and a matching name qualifies. -/
theorem keyboard_filter_characterization_witness :
    qualifiesAsKeyboard
      ⟨some [KEY_A, KEY_Z], some "AT Translated Set 2 keyboard"⟩ = true :=
  (keyboard_filter_characterization
    ⟨some [KEY_A, KEY_Z], some "AT Translated Set 2 keyboard"⟩).mpr
    ⟨[KEY_A, KEY_Z], "AT Translated Set 2 keyboard", rfl, rfl,
     by decide, by decide, by decide⟩

/-- C6 counterexample: a failure to register the device's descriptor
with the readiness-notification facility (the epoll `add`) makes the
reader report a status and terminate — it does not degrade to polling. -/
theorem reader_setup_counterexample :
    readerSetup true true true false =
      ReaderSetup.terminate "epoll ctl failed" := by
  rfl

/-- C6 (amended): a failure to switch the descriptor to non-blocking
mode is best-effort — the reader proceeds into its loop; but a failure
to create the readiness facility, or to register the descriptor with it,
makes the reader report a status and terminate. -/
theorem reader_setup_policy (nb : Bool) :
    readerSetup true nb true true = ReaderSetup.proceed nb ∧
    readerSetup true false true true = ReaderSetup.proceed false ∧
    (∀ ea, ∃ s, readerSetup true nb false ea = ReaderSetup.terminate s) ∧
    (∃ s, readerSetup true nb true false = ReaderSetup.terminate s) := by
  refine ⟨rfl, rfl, ?_, ⟨"epoll ctl failed", rfl⟩⟩
  intro ea
  exact ⟨"epoll create failed", rfl⟩

/-- Witness for `reader_setup_policy`: with the non-blocking switch
failed but epoll set up, the reader proceeds (degraded). -/
theorem reader_setup_policy_witness :
    readerSetup true false true true = ReaderSetup.proceed false :=
  (reader_setup_policy false).1

/-- C7: the process exits with status 0 exactly when the shutdown flag
was set (a clean, requested shutdown), and with the distinct non-zero
status 1 exactly when `main` reaches its end — i.e. all device reader
threads have exited — without the flag having been set. -/
theorem exit_status_policy (sd : Bool) :
    mainExitStatus true = 0 ∧
    mainExitStatus false = 1 ∧
    (mainExitStatus sd ≠ 0 ↔ sd = false) := by
  refine ⟨rfl, rfl, ?_⟩
  cases sd <;> simp [mainExitStatus]

/-- Witness for `exit_status_policy` at the concrete flag value
`false`. -/
theorem exit_status_policy_witness :
    mainExitStatus false = 1 :=
  (exit_status_policy false).2.1

/-! ### Modifier-state tracking lemmas (claim C8) -/

theorem updateModifiers_ctrl (m : ModifierState) (c : Nat) (v : Int) :
    (updateModifiers m c v).ctrl =
      if isCtrlCode c then v != 0 else m.ctrl := by
  unfold updateModifiers isCtrlCode
  split_ifs <;>
    simp_all [KEY_LEFTCTRL, KEY_RIGHTCTRL, KEY_LEFTALT, KEY_RIGHTALT,
      KEY_LEFTMETA, KEY_RIGHTMETA]

theorem updateModifiers_alt (m : ModifierState) (c : Nat) (v : Int) :
    (updateModifiers m c v).alt =
      if isAltCode c then v != 0 else m.alt := by
  unfold updateModifiers isAltCode
  split_ifs <;>
    simp_all [KEY_LEFTCTRL, KEY_RIGHTCTRL, KEY_LEFTALT, KEY_RIGHTALT,
      KEY_LEFTMETA, KEY_RIGHTMETA]
  all_goals (exfalso; omega)

theorem updateModifiers_super (m : ModifierState) (c : Nat) (v : Int) :
    (updateModifiers m c v).super_key =
      if isMetaCode c then v != 0 else m.super_key := by
  unfold updateModifiers isMetaCode
  split_ifs <;>
    simp_all [KEY_LEFTCTRL, KEY_RIGHTCTRL, KEY_LEFTALT, KEY_RIGHTALT,
      KEY_LEFTMETA, KEY_RIGHTMETA]
  all_goals (exfalso; omega)

/-- A key event whose code belongs to none of the three modifier pairs
leaves the modifier state untouched. -/
theorem updateModifiers_other (m : ModifierState) (c : Nat) (v : Int)
    (h1 : isCtrlCode c = false) (h2 : isAltCode c = false)
    (h3 : isMetaCode c = false) :
    updateModifiers m c v = m := by
  simp only [isCtrlCode, isAltCode, isMetaCode, Bool.or_eq_false_iff,
    beq_eq_false_iff_ne, ne_eq] at h1 h2 h3
  unfold updateModifiers
  rw [if_neg (not_or.mpr ⟨h1.1, h1.2⟩), if_neg (not_or.mpr ⟨h2.1, h2.2⟩),
    if_neg (not_or.mpr ⟨h3.1, h3.2⟩)]

theorem lastModValue_nil (p : Nat → Bool) (d : Bool) :
    lastModValue p d [] = d :=
  rfl

theorem lastModValue_cons (p : Nat → Bool) (d : Bool) (e : Nat × Int)
    (evs : List (Nat × Int)) :
    lastModValue p d (e :: evs) =
      lastModValue p (if p e.1 then e.2 != 0 else d) evs := by
  unfold lastModValue
  rw [List.filter_cons]
  cases hp : p e.1
  · simp
  · simp only [if_pos trivial, if_true]
    cases hfe : evs.filter (fun x => p x.1) with
    | nil => simp
    | cons a l =>
        rw [List.getLast?_cons_cons]
        rfl

/-- After folding the device reader's modifier update over any sequence
of key events, each modifier boolean is `value != 0` of the most recent
event of its left/right pair (starting from the given state's value). -/
theorem runModifiers_eq_last (evs : List (Nat × Int))
    (m : ModifierState) :
    runModifiers m evs =
      { ctrl := lastModValue isCtrlCode m.ctrl evs,
        alt := lastModValue isAltCode m.alt evs,
        super_key := lastModValue isMetaCode m.super_key evs } := by
  induction evs generalizing m with
  | nil => rfl
  | cons e evs ih =>
      have hstep : runModifiers m (e :: evs) =
          runModifiers (updateModifiers m e.1 e.2) evs := rfl
      rw [hstep, ih, lastModValue_cons, lastModValue_cons,
        lastModValue_cons, updateModifiers_ctrl, updateModifiers_alt,
        updateModifiers_super]

/-- C8: the modifier state is mutated only by modifier-pair key events,
and after any sequence of key events each of the three booleans equals
`value != 0` of the most recently observed event whose code is the left
or right key of that pair (false if none occurred) — left and right
merged, never stale beyond one event. -/
theorem modifier_state_reflects_last (evs : List (Nat × Int))
    (m : ModifierState) (c : Nat) (v : Int)
    (h1 : isCtrlCode c = false) (h2 : isAltCode c = false)
    (h3 : isMetaCode c = false) :
    updateModifiers m c v = m ∧
    runModifiers ModifierState.initial evs =
      { ctrl := lastModValue isCtrlCode false evs,
        alt := lastModValue isAltCode false evs,
        super_key := lastModValue isMetaCode false evs } :=
  ⟨updateModifiers_other m c v h1 h2 h3,
   runModifiers_eq_last evs ModifierState.initial⟩

/-- Witness for `modifier_state_reflects_last`: a press of right Ctrl
followed by `KEY_Q` events and a release of left Ctrl leaves ctrl false,
alt and super untouched; and a `KEY_Q` event alone never mutates the
state. -/
theorem modifier_state_reflects_last_witness :
    updateModifiers ModifierState.initial KEY_Q 1 =
      ModifierState.initial ∧
    runModifiers ModifierState.initial
        [(KEY_RIGHTCTRL, 1), (KEY_Q, 1), (KEY_LEFTCTRL, 0)] =
      { ctrl := false, alt := false, super_key := false } := by
  have h := modifier_state_reflects_last
    [(KEY_RIGHTCTRL, 1), (KEY_Q, 1), (KEY_LEFTCTRL, 0)]
    ModifierState.initial KEY_Q 1 (by decide) (by decide) (by decide)
  refine ⟨h.1, ?_⟩
  rw [h.2]
  decide
